import Mathlib

/-!
Verification development for the RimlessWheel Teensy control firmware
(src/teensy/src/main.cpp).

The firmware is shallowly embedded: real-valued quantities (C float/double)
are modelled as exact rationals, so theorems speak about the algebraic
content of the computations the code performs.  External devices (the ODrive
motor controller, the IMU, the AHRS filter, the ROS bus, the e-stop pin)
appear as inputs per tick; every line the firmware writes to the ODrive
serial channel and every message it publishes is recorded as an event.
The blocking e-stop sub-loop inside computeTorque is flattened into a
two-mode machine (run / held) whose held steps are exactly the iterations
of the while-loop; this matches the spec's reading of each sub-loop
iteration as one tick (it re-reads sensors and republishes telemetry).
-/

namespace RimlessWheel

/-- FILTER_UPDATE_RATE_HZ from main.cpp (100). -/
def FILTER_UPDATE_RATE_HZ : ℚ := 100

/-- samplingTime = 1.0f/FILTER_UPDATE_RATE_HZ (main.cpp line 106). -/
def samplingTime : ℚ := 1 / FILTER_UPDATE_RATE_HZ

/-- The IEEE-754 double value of M_PI, as an exact rational
(884279719003555 / 2^48). -/
def m_pi : ℚ := 884279719003555 / 281474976710656

/-- Number of spokes, constant k = 10.0f in main.cpp. -/
def k : ℚ := 10

/-- alpha = 360.0f/k/2.0f * M_PI/180.0f (main.cpp line 103): the initial
seed of the previous-spoke-angle slots.  (The float rounding of this
constant is immaterial to every claim: the slots are overwritten by the
first encoder read.) -/
def alpha : ℚ := 360 / k / 2 * m_pi / 180

/-- SENSORS_RADS_TO_DPS from Adafruit_Sensor.h (57.29578), the rad/s to
deg/s scale used around the AHRS filter. -/
def SENSORS_RADS_TO_DPS : ℚ := 57.29578

/-- ODrive control-mode code CONTROL_MODE_TORQUE_CONTROL. -/
def CONTROL_MODE_TORQUE_CONTROL : Nat := 1

/-- ODrive control-mode code CONTROL_MODE_VELOCITY_CONTROL. -/
def CONTROL_MODE_VELOCITY_CONTROL : Nat := 2

/-- ODrive axis-state code AXIS_STATE_MOTOR_CALIBRATION. -/
def AXIS_STATE_MOTOR_CALIBRATION : Nat := 4

/-- ODrive axis-state code AXIS_STATE_ENCODER_OFFSET_CALIBRATION. -/
def AXIS_STATE_ENCODER_OFFSET_CALIBRATION : Nat := 7

/-- ODrive axis-state code AXIS_STATE_CLOSED_LOOP_CONTROL. -/
def AXIS_STATE_CLOSED_LOOP_CONTROL : Nat := 8

/-- A 3-vector of rationals (a float[3] in the firmware). -/
structure V3 where
  x : ℚ
  y : ℚ
  z : ℚ
deriving DecidableEq

/-- The mathematical cross product computed by cross() in main.cpp when its
output buffer does not alias its arguments. -/
def cross (a b : V3) : V3 :=
  ⟨a.y * b.z - a.z * b.y, a.z * b.x - a.x * b.z, a.x * b.y - a.y * b.x⟩

/-- cross() as executed when the second argument IS the static output
buffer crossProd (the call cross(omega, omegaCrossR) in comAcceleration):
component 0 is written first and is then read back while computing
components 1 and 2, because crossProd[1] reads y[0] and crossProd[2]
reads y[0] and y[1] after they were overwritten. -/
def crossSelfAlias (a b : V3) : V3 :=
  let c0 := a.y * b.z - a.z * b.y
  let c1 := a.z * c0 - a.x * b.z
  let c2 := a.x * c1 - a.y * c0
  ⟨c0, c1, c2⟩

/-- imuToCOM, the fixed lever-arm vector from the IMU to the center of
mass; hard-coded to {0.0f, 0.0f, 0.0f} in comAcceleration (line 362). -/
def imuToCOM : V3 := ⟨0, 0, 0⟩

/-- comAcceleration (main.cpp lines 358-376).  The three cross() calls all
return the same static buffer, so alphaCrossR overwrites omegaCrossR, and
the final call cross(omega, omegaCrossR) reads the buffer it writes; both
surviving pointers (alphaCrossR and omegaCrossOmegaCrossR) alias that final
buffer when acc_COM is assembled.  With imuToCOM = 0 every buffer is zero,
so the aliasing is latent. -/
def comAcceleration (ap gyro : V3) (alpha_x : ℚ) : V3 :=
  let omega := gyro
  let alphaVec : V3 := ⟨alpha_x, 0, 0⟩
  let buf1 := cross omega imuToCOM
  let buf2 := cross alphaVec imuToCOM
  let buf3 := crossSelfAlias omega buf2
  let _ := buf1
  ⟨ap.x - buf3.x - buf3.x, ap.y - buf3.y - buf3.y, ap.z - buf3.z - buf3.z⟩

/-- The run/held flattening of computeTorque's blocking e-stop loop:
held means execution is inside the while (estop()) sub-loop. -/
inductive Mode where
  | run
  | held
deriving DecidableEq

/-- The global mutable firmware state (the file-scope variables of
main.cpp that the control path reads or writes). -/
structure SysState where
  mode : Mode
  timestamp : Nat
  torque0 : ℚ
  torque1 : ℚ
  oldTorsoOmega : ℚ
  oldSpoke1Angle : ℚ
  oldSpoke2Angle : ℚ
  oldSpokeSpeed : ℚ
  enc0Offset : ℚ
  enc1Offset : ℚ
  yawOffset : ℚ
deriving DecidableEq

/-- The spokeStates[4] array produced by readEncoder: corrected positions
(indices 0,1) and finite-difference velocities (indices 2,3). -/
structure SpokeStates where
  pos0 : ℚ
  pos1 : ℚ
  vel0 : ℚ
  vel1 : ℚ
deriving DecidableEq

/-- readEncoder (main.cpp lines 378-395): corrected positions are the raw
ODrive readings (axis 0 sign-inverted) minus the stored offsets; the
velocities are backward finite differences against the single retained
previous-position slots, divided by the fixed samplingTime; the slots are
then overwritten with the current positions. -/
def readEncoder (st : SysState) (raw0 raw1 : ℚ) : SysState × SpokeStates :=
  let s0 := -1 * raw0 - st.enc0Offset
  let s1 := raw1 - st.enc1Offset
  let v0 := (s0 - st.oldSpoke1Angle) / samplingTime
  let v1 := (s1 - st.oldSpoke2Angle) / samplingTime
  ({ st with oldSpoke1Angle := s0, oldSpoke2Angle := s1, oldSpokeSpeed := v0 },
   ⟨s0, s1, v0, v1⟩)

/-- One calibrated IMU sample plus the AHRS filter outputs for the tick
(the filter is an external black box, so its getRoll/getYaw results are
inputs to the model). -/
structure IMUInput where
  gx : ℚ
  gy : ℚ
  gz : ℚ
  ax : ℚ
  ay : ℚ
  az : ℚ
  mx : ℚ
  my : ℚ
  mz : ℚ
  filterRoll : ℚ
  filterYaw : ℚ
deriving DecidableEq

/-- The torsoStates[3] array produced by readIMU:
roll, angular velocity, offset-corrected yaw. -/
structure TorsoStates where
  roll : ℚ
  omega : ℚ
  yaw : ℚ
deriving DecidableEq

/-- Result of readIMU: the updated state, the torso states, and the
center-of-mass acceleration that was fed to filter.update. -/
structure IMUResult where
  st : SysState
  torso : TorsoStates
  accCOM : V3
deriving DecidableEq

/-- readIMU (main.cpp lines 397-439): takes the calibrated gyro x as the
torso angular velocity, finite-differences it against oldTorsoOmega to get
alpha_x, shifts the accelerometer sample to the center of mass, and reads
roll and yaw back from the filter, rescaling by 1/SENSORS_RADS_TO_DPS and
subtracting the stored yaw offset; oldTorsoOmega is then updated. -/
def readIMU (st : SysState) (im : IMUInput) : IMUResult :=
  let omega := im.gx
  let alpha_x := (omega - st.oldTorsoOmega) / samplingTime
  let accCOM := comAcceleration ⟨im.ax, im.ay, im.az⟩ ⟨im.gx, im.gy, im.gz⟩ alpha_x
  let roll := im.filterRoll * 1 / SENSORS_RADS_TO_DPS
  let yaw := im.filterYaw * 1 / SENSORS_RADS_TO_DPS - st.yawOffset
  ⟨{ st with oldTorsoOmega := omega }, ⟨roll, omega, yaw⟩, accCOM⟩

/-- The nine fault codes polled by readErrors, one field per read call, in
the fixed polling order of main.cpp lines 506-518. -/
structure Faults where
  odriveErr : Int
  motor0 : Int
  motor1 : Int
  axis0Err : Int
  axis1Err : Int
  encoder0 : Int
  encoder1 : Int
  controller0 : Int
  controller1 : Int
deriving DecidableEq

/-- readErrors (main.cpp lines 502-528): assembles the 9-element fault
vector in the fixed order (1 device, 2 motor, 2 axis, 2 encoder,
2 controller) and reduces it with ret |= (errors[i] != 0), a bitwise or of
the nonzero-ness bits.  Returns (fault vector, ret). -/
def readErrors (f : Faults) : List Int × Int :=
  let errors : List Int :=
    [f.odriveErr, f.motor0, f.motor1, f.axis0Err, f.axis1Err,
     f.encoder0, f.encoder1, f.controller0, f.controller1]
  (errors, errors.foldl (fun r e => r.lor (if e ≠ 0 then 1 else 0)) 0)

/-- calibrateMotor (main.cpp lines 485-500) for one axis, denoted as the
list of axis states requested over the serial channel.  res1, res2, res3
are the successive ODrive.run_state results (false means the transition
failed or timed out); after a false result the function returns
immediately, so no later state is requested. -/
def calibrateMotor (res1 res2 res3 : Bool) : List Nat :=
  if res1 = false then
    [AXIS_STATE_MOTOR_CALIBRATION]
  else if res2 = false then
    [AXIS_STATE_MOTOR_CALIBRATION, AXIS_STATE_ENCODER_OFFSET_CALIBRATION]
  else
    [AXIS_STATE_MOTOR_CALIBRATION, AXIS_STATE_ENCODER_OFFSET_CALIBRATION,
     AXIS_STATE_CLOSED_LOOP_CONTROL]

/-- An observable action of the firmware: a line written to the ODrive
serial channel, a bus publish, or a sensor access marker. -/
inductive Ev where
  | setCtrlMode (axis : Nat) (ctrlMode : Nat)
  | setVelocity (axis : Nat) (v : ℚ)
  | setTorque (axis : Nat) (t : ℚ)
  | setTimestamp (t : Nat)
  | imuReadEv
  | encReadEv
  | filterUpdate (acc : V3)
  | publishSensors (pos : List ℚ) (vel : List ℚ)
  | publishErrors (errs : List Int)
deriving DecidableEq

/-- estop (main.cpp lines 329-336): true iff digitalRead(estop_in) == LOW,
i.e. the interlock is asserted. -/
def estop (pinLow : Bool) : Bool :=
  if pinLow then true else false

/-- commandTorque (main.cpp lines 325-327): one input_torque write. -/
def commandTorque (axis : Nat) (torque : ℚ) : Ev :=
  Ev.setTorque axis torque

/-- brake (main.cpp lines 338-345): switch both axes to velocity control
and command zero velocity on both. -/
def brake : List Ev :=
  [Ev.setCtrlMode 0 CONTROL_MODE_VELOCITY_CONTROL,
   Ev.setCtrlMode 1 CONTROL_MODE_VELOCITY_CONTROL,
   Ev.setVelocity 0 0, Ev.setVelocity 1 0]

/-- The for-loop that writes control_mode = CONTROL_MODE_TORQUE_CONTROL to
both axes (used on e-stop sub-loop iterations and on sub-loop exit). -/
def setTorqueModeBoth : List Ev :=
  [Ev.setCtrlMode 0 CONTROL_MODE_TORQUE_CONTROL,
   Ev.setCtrlMode 1 CONTROL_MODE_TORQUE_CONTROL]

/-- The branch decision of computeTorque (main.cpp lines 233-270) at entry:
if estop reads asserted, brake and enter the blocking sub-loop (held mode);
else if oldTorsoOmega >= 1.0*M_PI, brake once and restore torque mode;
else issue the stored torques (negated on axis 0, 1.0x on axis 1). -/
def computeTorqueEnter (est : Bool) (omega t0 t1 : ℚ) : Mode × List Ev :=
  if est then
    (Mode.held, brake)
  else if omega ≥ 1 * m_pi then
    (Mode.run, brake ++ setTorqueModeBoth)
  else
    (Mode.run, [commandTorque 0 (-t0), commandTorque 1 (1 * t1)])

/-- The external inputs consumed by one tick (one loop() invocation, or
one iteration of the blocking e-stop sub-loop): the millis() clock, the
e-stop pin level, the IMU/filter sample, the two raw encoder positions
ODrive.GetPosition returns, and the nine polled fault codes. -/
structure TickInput where
  now : Nat
  estopLow : Bool
  imu : IMUInput
  raw0 : ℚ
  raw1 : ℚ
  faults : Faults
deriving DecidableEq

/-- millis() - timestamp in uint32 arithmetic. -/
def elapsedMs (ts now : Nat) : Nat :=
  (now + 2 ^ 32 - ts % 2 ^ 32) % 2 ^ 32

/-- The publishSensorStates payload (main.cpp lines 441-483): positions
[roll, encPos0, encPos1, yaw] and velocities [omega, encVel0, encVel1]. -/
def publishEv (torso : TorsoStates) (spoke : SpokeStates) : Ev :=
  Ev.publishSensors [torso.roll, spoke.pos0, spoke.pos1, torso.yaw]
    [torso.omega, spoke.vel0, spoke.vel1]

/-- One step of the flattened firmware.  In run mode this is loop()
(main.cpp lines 211-231): gate on the sampling period (1000*samplingTime
milliseconds, i.e. skip while the uint32 elapsed time is below 10), reset
the timestamp, read IMU then encoders, poll faults and publish the fault
vector if any is nonzero, publish sensor states, then run computeTorque's
branch decision.  In held mode this is one iteration boundary of the
while (estop()) sub-loop inside computeTorque: if the pin still reads
asserted, re-write torque mode, command zero torque on both axes, re-read
encoders then IMU and republish; if released, restore torque mode and
return to run mode.  Returns the new state and the tick's event list. -/
def loopStep (s : SysState) (inp : TickInput) : SysState × List Ev :=
  match s.mode with
  | Mode.held =>
    if estop inp.estopLow then
      let p := readEncoder s inp.raw0 inp.raw1
      let r := readIMU p.1 inp.imu
      (r.st,
        setTorqueModeBoth ++ [commandTorque 0 0, commandTorque 1 0,
          Ev.encReadEv, Ev.imuReadEv, Ev.filterUpdate r.accCOM,
          publishEv r.torso p.2])
    else
      ({ s with mode := Mode.run }, setTorqueModeBoth)
  | Mode.run =>
    if elapsedMs s.timestamp inp.now < 10 then
      (s, [])
    else
      let s0 := { s with timestamp := inp.now }
      let r := readIMU s0 inp.imu
      let p := readEncoder r.st inp.raw0 inp.raw1
      let errRes := readErrors inp.faults
      let errEvs := if errRes.2 ≠ 0 then [Ev.publishErrors errRes.1] else []
      let ct := computeTorqueEnter (estop inp.estopLow)
        p.1.oldTorsoOmega p.1.torque0 p.1.torque1
      ({ p.1 with mode := ct.1 },
        [Ev.setTimestamp inp.now, Ev.imuReadEv, Ev.filterUpdate r.accCOM,
         Ev.encReadEv] ++ errEvs ++ [publishEv r.torso p.2] ++ ct.2)

/-- Run the flattened machine over a list of tick inputs, collecting the
per-tick event lists. -/
def runTicks (s : SysState) : List TickInput → SysState × List (List Ev)
  | [] => (s, [])
  | i :: rest =>
    let p := loopStep s i
    let q := runTicks p.1 rest
    (q.1, p.2 :: q.2)

/-- The file-scope initial values of the firmware globals (main.cpp lines
106-118) as they stand when setup() reaches the encoder/IMU reads. -/
def initState : SysState :=
  { mode := Mode.run, timestamp := 0, torque0 := 0, torque1 := 0,
    oldTorsoOmega := 0, oldSpoke1Angle := alpha, oldSpoke2Angle := alpha,
    oldSpokeSpeed := 0, enc0Offset := 0, enc1Offset := 0, yawOffset := 0 }

/-- The external inputs consumed by setup(): the first raw encoder
positions, the first IMU/filter sample, and the millis() value at the end
of setup. -/
structure SetupInput where
  raw0 : ℚ
  raw1 : ℚ
  imu : IMUInput
  now0 : Nat
deriving DecidableEq

/-- The offset-capturing tail of setup() (main.cpp lines 185-206): read
the encoders, then the IMU (both still with zero offsets), store the
resulting corrected readings as enc0Offset, enc1Offset and yawOffset, and
take the reference timestamp. -/
def setup (si : SetupInput) : SysState :=
  let p := readEncoder initState si.raw0 si.raw1
  let r := readIMU p.1 si.imu
  let s3 := { r.st with enc0Offset := p.2.pos0, enc1Offset := p.2.pos1,
                        yawOffset := r.torso.yaw }
  { s3 with timestamp := si.now0 }

/-- A /torso_command JointState message; the firmware only ever reads
effort[0] in the TORQUE_CONTROL build. -/
structure JointStateMsg where
  effort0 : ℚ
  effort1 : ℚ
deriving DecidableEq

/-- receiveJointState (main.cpp lines 272-300, TORQUE_CONTROL build):
torque0 := msg.effort[0]; torque1 := torque0.  effort[1] is never read. -/
def receiveJointState (s : SysState) (msg : JointStateMsg) : SysState :=
  let t0 := msg.effort0
  let t1 := t0
  { s with torque0 := t0, torque1 := t1 }

/-- An /odrive_command Joy message (buttons 0 and 3 are the ones read). -/
structure JoyMsg where
  button0 : Int
  button3 : Int
deriving DecidableEq

/-- receiveODriveCommand (main.cpp lines 302-323): writes serial commands
and re-runs calibration, but touches none of the firmware globals, so it
is the identity on the modelled state. -/
def receiveODriveCommand (s : SysState) (msg : JoyMsg) : SysState :=
  s

/-- States reachable after setup() with first reads si, under any
interleaving of control ticks and incoming bus messages. -/
inductive Reachable (si : SetupInput) : SysState → Prop where
  | start : Reachable si (setup si)
  | tick (s : SysState) (inp : TickInput) :
      Reachable si s → Reachable si (loopStep s inp).1
  | joint (s : SysState) (m : JointStateMsg) :
      Reachable si s → Reachable si (receiveJointState s m)
  | odrv (s : SysState) (m : JoyMsg) :
      Reachable si s → Reachable si (receiveODriveCommand s m)

/-- True of the events that command actuation (a velocity or torque
command), as opposed to mode writes, reads and publishes. -/
def isActuation : Ev → Bool
  | Ev.setVelocity _ _ => true
  | Ev.setTorque _ _ => true
  | _ => false

/-- The actuation commands of a tick, in order. -/
def actuations (evs : List Ev) : List Ev :=
  evs.filter isActuation

/-- A tick holds both axes at zero actuation: its actuation commands are
exactly zero-velocity on both axes (brake) or zero-torque on both axes
(the e-stop sub-loop body). -/
def zeroHold (evs : List Ev) : Prop :=
  actuations evs = [Ev.setVelocity 0 0, Ev.setVelocity 1 0]
  ∨ actuations evs = [Ev.setTorque 0 0, Ev.setTorque 1 0]

/-- True if the tick published the sensor-state message. -/
def publishesSensors (evs : List Ev) : Bool :=
  evs.any (fun e => match e with | Ev.publishSensors _ _ => true | _ => false)

/-- True if the tick read both the encoders and the IMU. -/
def readsSensors (evs : List Ev) : Bool :=
  (evs.any (fun e => match e with | Ev.encReadEv => true | _ => false))
  && (evs.any (fun e => match e with | Ev.imuReadEv => true | _ => false))

/-- True of a fault-vector publish event. -/
def isErrPublish : Ev → Bool
  | Ev.publishErrors _ => true
  | _ => false

/-- Test fixture: an all-zero IMU/filter sample. -/
def zeroIMU : IMUInput :=
  { gx := 0, gy := 0, gz := 0, ax := 0, ay := 0, az := 0,
    mx := 0, my := 0, mz := 0, filterRoll := 0, filterYaw := 0 }

/-- Test fixture: all nine fault reads zero. -/
def zeroFaults : Faults :=
  { odriveErr := 0, motor0 := 0, motor1 := 0, axis0Err := 0, axis1Err := 0,
    encoder0 := 0, encoder1 := 0, controller0 := 0, controller1 := 0 }

/-- Test fixture: a quiescent run-mode state. -/
def baseState : SysState :=
  { mode := Mode.run, timestamp := 0, torque0 := 0, torque1 := 0,
    oldTorsoOmega := 0, oldSpoke1Angle := 0, oldSpoke2Angle := 0,
    oldSpokeSpeed := 0, enc0Offset := 0, enc1Offset := 0, yawOffset := 0 }

/-- Test fixture: a quiet tick input at millis() = 100. -/
def baseTick : TickInput :=
  { now := 100, estopLow := false, imu := zeroIMU, raw0 := 0, raw1 := 0,
    faults := zeroFaults }

/-- Test fixture for the C5 counterexample: stored torques 5, tick input
whose torso angular velocity is -4 rad/s (magnitude 4 > pi). -/
def sC5cex : SysState :=
  { baseState with torque0 := 5, torque1 := 5 }

/-- Test fixture: tick input with gyro x = -4 rad/s, interlock released. -/
def iC5cex : TickInput :=
  { baseTick with imu := { zeroIMU with gx := -4 } }

/-- Test fixture for the C8 scenario: startup raw spoke positions
[0.10, -0.10]. -/
def siC8 : SetupInput :=
  { raw0 := 1 / 10, raw1 := -1 / 10, imu := zeroIMU, now0 := 0 }

/-- Test fixture: an all-zero setup input. -/
def zeroSetup : SetupInput :=
  { raw0 := 0, raw1 := 0, imu := zeroIMU, now0 := 0 }

end RimlessWheel

namespace RimlessWheel

/-- Claim C2: for every pair of consecutive encoder samples, the reported
velocity of each spoke axis equals (currentPosition - previousPosition)
divided by the fixed sampling period 1/FILTER_UPDATE_RATE_HZ exactly, with
no smoothing; only the immediately prior position sample is retained
between ticks. -/
theorem C2_velocity_finite_difference (st : SysState) (raw0 raw1 : ℚ) :
    ((readEncoder st raw0 raw1).2.vel0
        = ((readEncoder st raw0 raw1).2.pos0 - st.oldSpoke1Angle) / samplingTime)
    ∧ ((readEncoder st raw0 raw1).2.vel1
        = ((readEncoder st raw0 raw1).2.pos1 - st.oldSpoke2Angle) / samplingTime)
    ∧ samplingTime = 1 / FILTER_UPDATE_RATE_HZ
    ∧ ((readEncoder st raw0 raw1).1.oldSpoke1Angle = (readEncoder st raw0 raw1).2.pos0)
    ∧ ((readEncoder st raw0 raw1).1.oldSpoke2Angle = (readEncoder st raw0 raw1).2.pos1) := by
  refine ⟨rfl, rfl, rfl, rfl, rfl⟩

/-- Claim C7: comAcceleration equals a_IMU - (alpha x r) - (omega x (omega x r))
componentwise, where r = imuToCOM is the fixed lever-arm vector of the code,
and since that vector is zero the corrected acceleration equals the raw
acceleration for all inputs. -/
theorem C7_com_acceleration (ap gyro : V3) (alpha_x : ℚ) :
    (comAcceleration ap gyro alpha_x
        = ⟨ap.x - (cross ⟨alpha_x, 0, 0⟩ imuToCOM).x
              - (cross gyro (cross gyro imuToCOM)).x,
           ap.y - (cross ⟨alpha_x, 0, 0⟩ imuToCOM).y
              - (cross gyro (cross gyro imuToCOM)).y,
           ap.z - (cross ⟨alpha_x, 0, 0⟩ imuToCOM).z
              - (cross gyro (cross gyro imuToCOM)).z⟩)
    ∧ imuToCOM = ⟨0, 0, 0⟩
    ∧ comAcceleration ap gyro alpha_x = ap := by
  refine ⟨?_, rfl, ?_⟩ <;>
    · simp only [comAcceleration, cross, crossSelfAlias, imuToCOM]
      cases ap
      simp only [V3.mk.injEq]
      constructor
      · ring
      constructor <;> ring

/-- The accumulator of the readErrors fold stays in {0, 1} and ends up
nonzero exactly when the accumulator started at 1 or some list element is
nonzero. -/
lemma foldl_lor_characterization (l : List Int) (r : Int) (hr : r = 0 ∨ r = 1) :
    (l.foldl (fun a e => a.lor (if e ≠ 0 then 1 else 0)) r = 0 ∨
     l.foldl (fun a e => a.lor (if e ≠ 0 then 1 else 0)) r = 1)
    ∧ (l.foldl (fun a e => a.lor (if e ≠ 0 then 1 else 0)) r ≠ 0
        ↔ (r = 1 ∨ ∃ e ∈ l, e ≠ 0)) := by
  induction l generalizing r with
  | nil =>
    rcases hr with h | h <;> subst h <;> simp
  | cons e t ih =>
    have hstep : (r.lor (if e ≠ 0 then 1 else 0)) = 0
        ∨ (r.lor (if e ≠ 0 then 1 else 0)) = 1 := by
      rcases hr with h | h <;> subst h <;> by_cases he : e = 0 <;>
        simp [he] <;> decide
    have hstep1 : (r.lor (if e ≠ 0 then 1 else 0)) = 1 ↔ (r = 1 ∨ e ≠ 0) := by
      rcases hr with h | h <;> subst h <;> by_cases he : e = 0 <;>
        simp [he] <;> decide
    have hm := ih _ hstep
    refine ⟨hm.1, ?_⟩
    rw [List.foldl_cons, hm.2, hstep1]
    constructor
    · rintro (h | h)
      · rcases h with h | h
        · exact Or.inl h
        · exact Or.inr ⟨e, List.mem_cons_self e t, h⟩
      · rcases h with ⟨x, hx, hxne⟩
        exact Or.inr ⟨x, List.mem_cons_of_mem e hx, hxne⟩
    · rintro (h | ⟨x, hx, hxne⟩)
      · exact Or.inl (Or.inl h)
      · rcases List.mem_cons.mp hx with h | h
        · subst h; exact Or.inl (Or.inr hxne)
        · exact Or.inr ⟨x, h, hxne⟩

/-- None of the serial writes computeTorque can emit is a fault publish. -/
lemma computeTorqueEnter_no_errPublish (est : Bool) (om t0 t1 : ℚ) :
    ∀ ev ∈ (computeTorqueEnter est om t0 t1).2, isErrPublish ev = false := by
  intro ev hev
  unfold computeTorqueEnter at hev
  cases est with
  | true =>
    simp only [if_true] at hev
    simp only [brake, List.mem_cons, List.mem_singleton, List.not_mem_nil,
      or_false] at hev
    rcases hev with rfl | rfl | rfl | rfl <;> rfl
  | false =>
    simp only [Bool.false_eq_true, if_false] at hev
    by_cases hw : om ≥ 1 * m_pi
    · rw [if_pos hw] at hev
      simp only [brake, setTorqueModeBoth, List.mem_append, List.mem_cons,
        List.mem_singleton, List.not_mem_nil, or_false] at hev
      rcases hev with (rfl | rfl | rfl | rfl) | (rfl | rfl) <;> rfl
    · rw [if_neg hw] at hev
      simp only [commandTorque, List.mem_cons, List.mem_singleton,
        List.not_mem_nil, or_false] at hev
      rcases hev with rfl | rfl <;> rfl

/-- Claim C3: the aggregated anyFault result of readErrors is nonzero iff
at least one of the 9 polled fault values (assembled in the fixed order:
1 device, 2 motor, 2 axis, 2 encoder, 2 controller) is nonzero; and on a
tick whose 9 polled values are all zero, no fault-vector publish occurs. -/
theorem C3_any_fault_iff (f : Faults) (s : SysState) (inp : TickInput) :
    ((readErrors f).2 ≠ 0 ↔ ∃ e ∈ (readErrors f).1, e ≠ 0)
    ∧ ((∀ e ∈ (readErrors inp.faults).1, e = 0) →
        ∀ ev ∈ (loopStep s inp).2, isErrPublish ev = false) := by
  constructor
  · have h := (foldl_lor_characterization
      [f.odriveErr, f.motor0, f.motor1, f.axis0Err, f.axis1Err,
       f.encoder0, f.encoder1, f.controller0, f.controller1] 0 (Or.inl rfl)).2
    simpa [readErrors] using h
  · intro hz ev hev
    have hzero : (readErrors inp.faults).2 = 0 := by
      have h := (foldl_lor_characterization
        [inp.faults.odriveErr, inp.faults.motor0, inp.faults.motor1,
         inp.faults.axis0Err, inp.faults.axis1Err, inp.faults.encoder0,
         inp.faults.encoder1, inp.faults.controller0, inp.faults.controller1]
        0 (Or.inl rfl)).2
      have hno : ¬ ((0 : Int) = 1
          ∨ ∃ e ∈ [inp.faults.odriveErr, inp.faults.motor0, inp.faults.motor1,
              inp.faults.axis0Err, inp.faults.axis1Err, inp.faults.encoder0,
              inp.faults.encoder1, inp.faults.controller0,
              inp.faults.controller1], e ≠ 0) := by
        rintro (h01 | ⟨x, hx, hxne⟩)
        · exact absurd h01 (by decide)
        · exact hxne (hz x hx)
      exact not_not.mp (fun hne => hno (h.mp hne))
    cases hmode : s.mode with
    | held =>
      rw [loopStep, hmode] at hev
      by_cases he : estop inp.estopLow
      · rw [if_pos he] at hev
        simp only [setTorqueModeBoth, commandTorque, publishEv,
          List.mem_append, List.mem_cons, List.mem_singleton,
          List.not_mem_nil, or_false] at hev
        rcases hev with (rfl | rfl) | rfl | rfl | rfl | rfl | rfl | rfl <;> rfl
      · rw [if_neg he] at hev
        simp only [setTorqueModeBoth, List.mem_cons, List.mem_singleton,
          List.not_mem_nil, or_false] at hev
        rcases hev with rfl | rfl <;> rfl
    | run =>
      rw [loopStep, hmode] at hev
      by_cases hg : elapsedMs s.timestamp inp.now < 10
      · rw [if_pos hg] at hev
        simp at hev
      · rw [if_neg hg] at hev
        simp only [hzero, ne_eq, not_true_eq_false, if_false,
          List.append_nil] at hev
        simp only [publishEv, List.mem_append, List.mem_cons,
          List.mem_singleton, List.not_mem_nil, or_false,
          List.nil_append] at hev
        rcases hev with ((rfl | rfl | rfl | rfl) | rfl) | hev
        · rfl
        · rfl
        · rfl
        · rfl
        · rfl
        · exact computeTorqueEnter_no_errPublish _ _ _ _ ev hev

/-- Claim C3 witness: with all nine polled values zero, a concrete run-mode
tick publishes no fault vector, and the aggregate is indeed tied to the
existence of a nonzero entry. -/
theorem C3_any_fault_iff_witness :
    ∀ ev ∈ (loopStep
      { mode := Mode.run, timestamp := 0, torque0 := 0, torque1 := 0,
        oldTorsoOmega := 0, oldSpoke1Angle := 0, oldSpoke2Angle := 0,
        oldSpokeSpeed := 0, enc0Offset := 0, enc1Offset := 0, yawOffset := 0 }
      { now := 100, estopLow := false,
        imu := { gx := 0, gy := 0, gz := 0, ax := 0, ay := 0, az := 0,
                 mx := 0, my := 0, mz := 0, filterRoll := 0, filterYaw := 0 },
        raw0 := 0, raw1 := 0,
        faults := { odriveErr := 0, motor0 := 0, motor1 := 0, axis0Err := 0,
                    axis1Err := 0, encoder0 := 0, encoder1 := 0,
                    controller0 := 0, controller1 := 0 } }).2,
      isErrPublish ev = false :=
  (C3_any_fault_iff
    { odriveErr := 0, motor0 := 0, motor1 := 0, axis0Err := 0, axis1Err := 0,
      encoder0 := 0, encoder1 := 0, controller0 := 0, controller1 := 0 }
    _ _).2 (by decide)

/-- Claim C4: calibration requests motor calibration, then encoder
calibration, then closed-loop control, in that order; a failed or
timed-out transition makes the function return immediately, so the
remaining states are never requested; in particular a failed encoder
calibration means closed-loop control is never requested. -/
theorem C4_calibration_order (res1 res2 res3 : Bool) :
    calibrateMotor res1 res2 res3
      <+: [AXIS_STATE_MOTOR_CALIBRATION, AXIS_STATE_ENCODER_OFFSET_CALIBRATION,
           AXIS_STATE_CLOSED_LOOP_CONTROL]
    ∧ (calibrateMotor res1 res2 res3).head? = some AXIS_STATE_MOTOR_CALIBRATION
    ∧ (res1 = false → calibrateMotor res1 res2 res3
        = [AXIS_STATE_MOTOR_CALIBRATION])
    ∧ (res1 = true → res2 = false → calibrateMotor res1 res2 res3
        = [AXIS_STATE_MOTOR_CALIBRATION, AXIS_STATE_ENCODER_OFFSET_CALIBRATION])
    ∧ (res1 = true → res2 = true → calibrateMotor res1 res2 res3
        = [AXIS_STATE_MOTOR_CALIBRATION, AXIS_STATE_ENCODER_OFFSET_CALIBRATION,
           AXIS_STATE_CLOSED_LOOP_CONTROL])
    ∧ (res2 = false →
        AXIS_STATE_CLOSED_LOOP_CONTROL ∉ calibrateMotor res1 res2 res3) := by
  cases res1 <;> cases res2 <;> cases res3 <;> decide

/-- Claim C4 witness: with the encoder-calibration transition timing out,
closed-loop control is never requested. -/
theorem C4_calibration_order_witness :
    AXIS_STATE_CLOSED_LOOP_CONTROL ∉ calibrateMotor true false true :=
  (C4_calibration_order true false true).2.2.2.2.2 rfl

/-- Claim C9: a loop() invocation whose elapsed time (uint32 milliseconds
since the reference timestamp) is below the fixed sampling period does no
work and leaves all state unchanged; when the period has elapsed, the
reference timestamp is reset to the current time, and that reset is the
first action of the tick, before any sensor read, fault poll or torque
computation. -/
theorem C9_rate_gate (s : SysState) (inp : TickInput) (hm : s.mode = Mode.run) :
    (elapsedMs s.timestamp inp.now < 10 → loopStep s inp = (s, []))
    ∧ (¬ elapsedMs s.timestamp inp.now < 10 →
        (loopStep s inp).1.timestamp = inp.now
        ∧ ∃ rest, (loopStep s inp).2
            = Ev.setTimestamp inp.now :: Ev.imuReadEv :: rest) := by
  constructor
  · intro h
    rw [loopStep, hm, if_pos h]
  · intro h
    rw [loopStep, hm]
    rw [if_neg h]
    refine ⟨rfl, ?_⟩
    exact ⟨_, rfl⟩

/-- Claim C9 witness: a concrete not-yet-elapsed tick is a no-op. -/
theorem C9_rate_gate_witness :
    loopStep
      { mode := Mode.run, timestamp := 100, torque0 := 0, torque1 := 0,
        oldTorsoOmega := 0, oldSpoke1Angle := 0, oldSpoke2Angle := 0,
        oldSpokeSpeed := 0, enc0Offset := 0, enc1Offset := 0, yawOffset := 0 }
      { now := 105, estopLow := false,
        imu := { gx := 0, gy := 0, gz := 0, ax := 0, ay := 0, az := 0,
                 mx := 0, my := 0, mz := 0, filterRoll := 0, filterYaw := 0 },
        raw0 := 0, raw1 := 0,
        faults := { odriveErr := 0, motor0 := 0, motor1 := 0, axis0Err := 0,
                    axis1Err := 0, encoder0 := 0, encoder1 := 0,
                    controller0 := 0, controller1 := 0 } }
      = ({ mode := Mode.run, timestamp := 100, torque0 := 0, torque1 := 0,
           oldTorsoOmega := 0, oldSpoke1Angle := 0, oldSpoke2Angle := 0,
           oldSpokeSpeed := 0, enc0Offset := 0, enc1Offset := 0,
           yawOffset := 0 }, []) :=
  (C9_rate_gate _ _ rfl).1 (by decide)

/-- computeTorque's decision when the interlock reads asserted. -/
lemma computeTorqueEnter_estop (om t0 t1 : ℚ) :
    computeTorqueEnter true om t0 t1 = (Mode.held, brake) := by
  rw [computeTorqueEnter, if_pos rfl]

/-- computeTorque's decision when the interlock is released and the
angular velocity is at least 1.0*M_PI. -/
lemma computeTorqueEnter_overspeed (om t0 t1 : ℚ) (h : 1 * m_pi ≤ om) :
    computeTorqueEnter false om t0 t1
      = (Mode.run, brake ++ setTorqueModeBoth) := by
  rw [computeTorqueEnter]
  rw [if_neg (by simp)]
  rw [if_pos h]

/-- computeTorque's decision in the normal branch. -/
lemma computeTorqueEnter_normal (om t0 t1 : ℚ) (h : om < m_pi) :
    computeTorqueEnter false om t0 t1
      = (Mode.run, [commandTorque 0 (-t0), commandTorque 1 (1 * t1)]) := by
  rw [computeTorqueEnter]
  rw [if_neg (by simp)]
  rw [if_neg (by rw [ge_iff_le, one_mul]; exact not_le.mpr h)]

/-- A worked run-mode tick with the interlock released and angular
velocity below the M_PI bound issues exactly the stored torque commands,
negated on axis 0, and stays in run mode. -/
lemma loopStep_run_normal (s : SysState) (inp : TickInput)
    (hm : s.mode = Mode.run) (hg : ¬ elapsedMs s.timestamp inp.now < 10)
    (he : inp.estopLow = false) (hgx : inp.imu.gx < m_pi) :
    actuations (loopStep s inp).2
      = [commandTorque 0 (-s.torque0), commandTorque 1 (1 * s.torque1)]
    ∧ (loopStep s inp).1.mode = Mode.run
    ∧ (loopStep s inp).1.timestamp = inp.now
    ∧ (loopStep s inp).1.torque0 = s.torque0
    ∧ (loopStep s inp).1.torque1 = s.torque1
    ∧ (loopStep s inp).1.enc0Offset = s.enc0Offset
    ∧ (loopStep s inp).1.enc1Offset = s.enc1Offset
    ∧ (loopStep s inp).1.yawOffset = s.yawOffset := by
  rw [loopStep, hm, if_neg hg]
  simp only [readEncoder, readIMU, estop, he, Bool.false_eq_true, if_false]
  rw [computeTorqueEnter_normal _ _ _ hgx]
  by_cases herr : (readErrors inp.faults).2 ≠ 0 <;>
    simp [herr, actuations, isActuation, publishEv, commandTorque]

/-- A worked run-mode tick with the interlock released but
oldTorsoOmega >= 1.0*M_PI issues a one-shot brake (zero-velocity hold on
both axes), immediately restores torque-control mode, and stays in run
mode with all stored torques and offsets intact. -/
lemma loopStep_run_overspeed (s : SysState) (inp : TickInput)
    (hm : s.mode = Mode.run) (hg : ¬ elapsedMs s.timestamp inp.now < 10)
    (he : inp.estopLow = false) (hgx : 1 * m_pi ≤ inp.imu.gx) :
    actuations (loopStep s inp).2 = [Ev.setVelocity 0 0, Ev.setVelocity 1 0]
    ∧ (∃ pre, (loopStep s inp).2 = pre ++ (brake ++ setTorqueModeBoth))
    ∧ (loopStep s inp).1.mode = Mode.run
    ∧ (loopStep s inp).1.timestamp = inp.now
    ∧ (loopStep s inp).1.torque0 = s.torque0
    ∧ (loopStep s inp).1.torque1 = s.torque1 := by
  rw [loopStep, hm, if_neg hg]
  simp only [readEncoder, readIMU, estop, he, Bool.false_eq_true, if_false]
  rw [computeTorqueEnter_overspeed _ _ _ hgx]
  constructor
  · by_cases herr : (readErrors inp.faults).2 ≠ 0 <;>
      simp [herr, actuations, isActuation, publishEv, brake, setTorqueModeBoth]
  refine ⟨⟨_, by rw [List.append_assoc]⟩, ?_, ?_, ?_, ?_⟩ <;>
    first | rfl | trivial

/-- Claim C5 (amended): on every run-mode tick with the interlock not
asserted and the torso angular velocity at least the M_PI bound in the
positive direction (the code compares the signed value, not the
magnitude), the controller issues a one-shot brake (velocity-hold at
zero on both axes) and then restores torque-control mode, without
entering the blocking interlock sub-loop (the machine stays in run mode,
nothing is latched), and normal torque issuance with the stored torques
is available again on the next tick. -/
theorem C5_overspeed_brake (s : SysState) (inp : TickInput)
    (hm : s.mode = Mode.run) (hg : ¬ elapsedMs s.timestamp inp.now < 10)
    (he : inp.estopLow = false) (hgx : 1 * m_pi ≤ inp.imu.gx) :
    actuations (loopStep s inp).2 = [Ev.setVelocity 0 0, Ev.setVelocity 1 0]
    ∧ (∃ pre, (loopStep s inp).2 = pre ++ (brake ++ setTorqueModeBoth))
    ∧ (loopStep s inp).1.mode = Mode.run
    ∧ (∀ inp2 : TickInput, inp2.estopLow = false → inp2.imu.gx < m_pi →
        ¬ elapsedMs (loopStep s inp).1.timestamp inp2.now < 10 →
        actuations (loopStep (loopStep s inp).1 inp2).2
          = [commandTorque 0 (-s.torque0), commandTorque 1 (1 * s.torque1)]) := by
  have h := loopStep_run_overspeed s inp hm hg he hgx
  refine ⟨h.1, h.2.1, h.2.2.1, ?_⟩
  intro inp2 he2 hgx2 hg2
  have h2 := loopStep_run_normal (loopStep s inp).1 inp2 h.2.2.1 hg2 he2 hgx2
  rw [h2.1, h.2.2.2.2.1, h.2.2.2.2.2]

/-- Claim C5 witness: a concrete tick with angular velocity 4 rad/s and
the interlock released brakes once and stays in run mode. -/
theorem C5_overspeed_brake_witness :
    actuations (loopStep baseState
        { baseTick with imu := { zeroIMU with gx := 4 } }).2
      = [Ev.setVelocity 0 0, Ev.setVelocity 1 0]
    ∧ (loopStep baseState
        { baseTick with imu := { zeroIMU with gx := 4 } }).1.mode
      = Mode.run := by
  have h := C5_overspeed_brake baseState
    { baseTick with imu := { zeroIMU with gx := 4 } } rfl (by decide) rfl
    (by norm_num [baseTick, zeroIMU, m_pi])
  exact ⟨h.1, h.2.2.1⟩

/-- Claim C5 counterexample: the claim as stated quantifies over the
angular velocity MAGNITUDE, but the code compares the signed value
oldTorsoOmega >= 1.0*M_PI.  At a run-mode tick with the interlock
released and torso angular velocity -4 rad/s (magnitude 4 > pi), no brake
command is issued at all: the controller issues the normal stored torque
commands instead. -/
theorem C5_magnitude_counterexample :
    |iC5cex.imu.gx| > m_pi
    ∧ iC5cex.estopLow = false
    ∧ sC5cex.mode = Mode.run
    ∧ ¬ elapsedMs sC5cex.timestamp iC5cex.now < 10
    ∧ actuations (loopStep sC5cex iC5cex).2
        = [commandTorque 0 (-5), commandTorque 1 (1 * 5)]
    ∧ (∀ v : ℚ, Ev.setVelocity 0 v ∉ (loopStep sC5cex iC5cex).2) := by
  have hgx : iC5cex.imu.gx < m_pi := by
    norm_num [iC5cex, baseTick, zeroIMU, m_pi]
  have h := loopStep_run_normal sC5cex iC5cex rfl (by decide) rfl hgx
  have hact : actuations (loopStep sC5cex iC5cex).2
      = [commandTorque 0 (-5), commandTorque 1 (1 * 5)] := by
    rw [h.1]; rfl
  refine ⟨by norm_num [iC5cex, baseTick, zeroIMU, m_pi], rfl, rfl,
    by decide, hact, ?_⟩
  intro v hv
  have hin : Ev.setVelocity 0 v ∈ actuations (loopStep sC5cex iC5cex).2 :=
    List.mem_filter.mpr ⟨hv, rfl⟩
  rw [hact] at hin
  simp [commandTorque] at hin

/-- The captured calibration offsets in the C8 scenario: the corrected
startup readings (computed while the stored offsets are still zero), with
axis 0 sign-inverted. -/
lemma setup_siC8_offsets :
    (setup siC8).enc0Offset = -(1 / 10)
    ∧ (setup siC8).enc1Offset = -(1 / 10)
    ∧ (setup siC8).oldSpoke1Angle = -(1 / 10)
    ∧ (setup siC8).oldSpoke2Angle = -(1 / 10) := by
  refine ⟨?_, ?_, ?_, ?_⟩ <;>
    norm_num [setup, siC8, initState, readEncoder, readIMU, zeroIMU]

/-- Claim C8 counterexample: with startup raw spoke positions
[0.10, -0.10] and tick-2 raw positions [0.12, -0.07], the code does NOT
produce corrected positions [0.02, 0.03] with velocities
[0.02/T, 0.03/T]: the axis-0 corrected position is -0.02 (the axis-0
sign inversion negates the raw delta), and the finite differences are
taken against the stored startup corrected positions [-0.10, -0.10], not
against zero. -/
theorem C8_scenario_counterexample :
    ¬ ((readEncoder (setup siC8) (12 / 100) (-7 / 100)).2.pos0 = 2 / 100
       ∧ (readEncoder (setup siC8) (12 / 100) (-7 / 100)).2.pos1 = 3 / 100
       ∧ (readEncoder (setup siC8) (12 / 100) (-7 / 100)).2.vel0
           = (2 / 100) / samplingTime
       ∧ (readEncoder (setup siC8) (12 / 100) (-7 / 100)).2.vel1
           = (3 / 100) / samplingTime) := by
  intro h
  have h0 := h.1
  norm_num [setup, siC8, initState, readEncoder, readIMU, zeroIMU] at h0

/-- Claim C8 (amended): with startup raw spoke positions [0.10, -0.10]
and tick-2 raw positions [0.12, -0.07], the captured offsets are
[-0.10, -0.10] and the tick-2 corrected positions are [-0.02, 0.03] with
velocities [0.08/T, 0.13/T] (the previous-position slots hold the startup
corrected positions [-0.10, -0.10]). -/
theorem C8_scenario :
    (setup siC8).enc0Offset = -(10 / 100)
    ∧ (setup siC8).enc1Offset = -(10 / 100)
    ∧ (readEncoder (setup siC8) (12 / 100) (-7 / 100)).2.pos0 = -(2 / 100)
    ∧ (readEncoder (setup siC8) (12 / 100) (-7 / 100)).2.pos1 = 3 / 100
    ∧ (readEncoder (setup siC8) (12 / 100) (-7 / 100)).2.vel0
        = (8 / 100) / samplingTime
    ∧ (readEncoder (setup siC8) (12 / 100) (-7 / 100)).2.vel1
        = (13 / 100) / samplingTime := by
  refine ⟨?_, ?_, ?_, ?_, ?_, ?_⟩ <;>
    norm_num [setup, siC8, initState, readEncoder, readIMU, zeroIMU,
      samplingTime, FILTER_UPDATE_RATE_HZ]

/-- Every flattened step leaves the stored torques and the calibration
offsets untouched: no branch of loop() or of the e-stop sub-loop writes
torque0, torque1, enc0Offset, enc1Offset or yawOffset. -/
lemma loopStep_preserves (s : SysState) (inp : TickInput) :
    (loopStep s inp).1.torque0 = s.torque0
    ∧ (loopStep s inp).1.torque1 = s.torque1
    ∧ (loopStep s inp).1.enc0Offset = s.enc0Offset
    ∧ (loopStep s inp).1.enc1Offset = s.enc1Offset
    ∧ (loopStep s inp).1.yawOffset = s.yawOffset := by
  cases hmode : s.mode with
  | held =>
    rw [loopStep, hmode]
    by_cases he : estop inp.estopLow = true
    · rw [if_pos he]
      simp [readEncoder, readIMU]
    · rw [if_neg he]
      exact ⟨rfl, rfl, rfl, rfl, rfl⟩
  | run =>
    rw [loopStep, hmode]
    by_cases hg : elapsedMs s.timestamp inp.now < 10
    · rw [if_pos hg]
      exact ⟨rfl, rfl, rfl, rfl, rfl⟩
    · rw [if_neg hg]
      simp [readEncoder, readIMU]

/-- A run-mode tick on which the interlock reads asserted brakes (a
zero-velocity hold on both axes), enters the held sub-loop mode, resets
the timestamp, publishes telemetry from the sensors read earlier in the
tick, and leaves the stored torques intact. -/
lemma loopStep_run_estop (s : SysState) (inp : TickInput)
    (hm : s.mode = Mode.run) (hg : ¬ elapsedMs s.timestamp inp.now < 10)
    (he : inp.estopLow = true) :
    actuations (loopStep s inp).2 = [Ev.setVelocity 0 0, Ev.setVelocity 1 0]
    ∧ publishesSensors (loopStep s inp).2 = true
    ∧ readsSensors (loopStep s inp).2 = true
    ∧ (loopStep s inp).1.mode = Mode.held
    ∧ (loopStep s inp).1.timestamp = inp.now
    ∧ (loopStep s inp).1.torque0 = s.torque0
    ∧ (loopStep s inp).1.torque1 = s.torque1 := by
  rw [loopStep, hm, if_neg hg]
  simp only [readEncoder, readIMU, estop, he, if_true]
  rw [computeTorqueEnter_estop]
  by_cases herr : (readErrors inp.faults).2 ≠ 0 <;>
    simp [herr, actuations, isActuation, publishesSensors, readsSensors,
      publishEv, brake]

/-- A held-mode step on which the interlock still reads asserted
re-writes torque mode, commands zero torque on both axes, re-reads both
sensors, republishes telemetry, stays held, and leaves the timestamp,
torques and offsets intact. -/
lemma loopStep_held_true (s : SysState) (inp : TickInput)
    (hm : s.mode = Mode.held) (he : inp.estopLow = true) :
    actuations (loopStep s inp).2 = [Ev.setTorque 0 0, Ev.setTorque 1 0]
    ∧ publishesSensors (loopStep s inp).2 = true
    ∧ readsSensors (loopStep s inp).2 = true
    ∧ (loopStep s inp).1.mode = Mode.held
    ∧ (loopStep s inp).1.timestamp = s.timestamp
    ∧ (loopStep s inp).1.torque0 = s.torque0
    ∧ (loopStep s inp).1.torque1 = s.torque1 := by
  rw [loopStep, hm]
  rw [if_pos (by rw [he]; rfl)]
  simp [readEncoder, readIMU, actuations, isActuation, publishesSensors,
    readsSensors, publishEv, commandTorque, setTorqueModeBoth, hm]

/-- A held-mode step on which the interlock reads released restores
torque-control mode on both axes, issues no actuation command, returns to
run mode, and changes nothing else. -/
lemma loopStep_held_false (s : SysState) (inp : TickInput)
    (hm : s.mode = Mode.held) (he : inp.estopLow = false) :
    (loopStep s inp).2 = setTorqueModeBoth
    ∧ actuations (loopStep s inp).2 = []
    ∧ (loopStep s inp).1 = { s with mode := Mode.run } := by
  rw [loopStep, hm]
  rw [if_neg (by rw [he]; exact Bool.false_ne_true ∘ id)]
  exact ⟨rfl, rfl, rfl⟩

/-- runTicks distributes over list append. -/
lemma runTicks_append (s : SysState) (l1 l2 : List TickInput) :
    runTicks s (l1 ++ l2)
      = ((runTicks (runTicks s l1).1 l2).1,
         (runTicks s l1).2 ++ (runTicks (runTicks s l1).1 l2).2) := by
  induction l1 generalizing s with
  | nil => simp [runTicks]
  | cons i t ih =>
    rw [show runTicks s ((i :: t) ++ l2)
        = ((runTicks (loopStep s i).1 (t ++ l2)).1,
           (loopStep s i).2 :: (runTicks (loopStep s i).1 (t ++ l2)).2)
        from rfl,
      ih]
    rfl

/-- Running any number of held-mode steps with the interlock asserted
throughout keeps the machine held, preserves the timestamp and the stored
torques, produces one event list per step, and every one of those event
lists holds both axes at zero actuation, re-reads both sensors and
republishes telemetry. -/
lemma runTicks_held_all (mids : List TickInput) (s : SysState)
    (hm : s.mode = Mode.held) (hms : ∀ i ∈ mids, i.estopLow = true) :
    (runTicks s mids).1.mode = Mode.held
    ∧ (runTicks s mids).1.timestamp = s.timestamp
    ∧ (runTicks s mids).1.torque0 = s.torque0
    ∧ (runTicks s mids).1.torque1 = s.torque1
    ∧ (runTicks s mids).2.length = mids.length
    ∧ (∀ o ∈ (runTicks s mids).2,
        zeroHold o ∧ publishesSensors o = true ∧ readsSensors o = true) := by
  induction mids generalizing s with
  | nil =>
    simp [runTicks, hm]
  | cons i t ih =>
    have hi : i.estopLow = true := hms i (List.mem_cons_self i t)
    have h1 := loopStep_held_true s i hm hi
    have h2 := ih (loopStep s i).1 h1.2.2.2.1
      (fun j hj => hms j (List.mem_cons_of_mem i hj))
    simp only [runTicks]
    refine ⟨h2.1, ?_, ?_, ?_, ?_, ?_⟩
    · rw [h2.2.1, h1.2.2.2.2.1]
    · rw [h2.2.2.1, h1.2.2.2.2.2.1]
    · rw [h2.2.2.2.1, h1.2.2.2.2.2.2]
    · simp [h2.2.2.2.2.1]
    · intro o ho
      rcases List.mem_cons.mp ho with rfl | ho2
      · exact ⟨Or.inr h1.1, h1.2.1, h1.2.2.1⟩
      · exact h2.2.2.2.2.2 o ho2

/-- Claim C1: a run in which the interlock reads asserted on the entry
tick and on every one of the following sub-loop iterations (N =
mids.length + 1 asserted readings in all), then reads released, and is
then followed by one normal gated tick.  Exactly the N asserted ticks
hold both axes at zero actuation, and each of them re-reads the sensors
and publishes telemetry; the release iteration issues no actuation at
all (it only restores torque-control mode); and the first tick after
release issues the normal stored torque commands (commandTorque with the
stored torque0 and torque1, negated on axis 0). -/
theorem C1_interlock_blocking_hold (s : SysState) (i0 : TickInput)
    (mids : List TickInput) (iRel iNext : TickInput)
    (hm : s.mode = Mode.run)
    (hg0 : ¬ elapsedMs s.timestamp i0.now < 10)
    (he0 : i0.estopLow = true)
    (hmids : ∀ i ∈ mids, i.estopLow = true)
    (heR : iRel.estopLow = false)
    (heN : iNext.estopLow = false)
    (hgxN : iNext.imu.gx < m_pi)
    (hgN : ¬ elapsedMs i0.now iNext.now < 10) :
    (runTicks s (i0 :: (mids ++ [iRel, iNext]))).2.length = mids.length + 3
    ∧ (∀ o ∈ (runTicks s (i0 :: (mids ++ [iRel, iNext]))).2.take
          (mids.length + 1),
        zeroHold o ∧ publishesSensors o = true ∧ readsSensors o = true)
    ∧ ((runTicks s (i0 :: (mids ++ [iRel, iNext]))).2.drop
          (mids.length + 1)).map actuations
        = [[], [commandTorque 0 (-s.torque0), commandTorque 1 (1 * s.torque1)]] := by
  have h0 := loopStep_run_estop s i0 hm hg0 he0
  have hmid := runTicks_held_all mids (loopStep s i0).1 h0.2.2.2.1 hmids
  set sMid := (runTicks (loopStep s i0).1 mids).1 with hsMid
  have hRel := loopStep_held_false sMid iRel hmid.1 heR
  set s3 := (loopStep sMid iRel).1 with hs3
  have hs3mode : s3.mode = Mode.run := by rw [hRel.2.2]
  have hs3ts : s3.timestamp = i0.now := by
    rw [hRel.2.2]
    show sMid.timestamp = i0.now
    rw [hmid.2.1, h0.2.2.2.2.1]
  have hs3t0 : s3.torque0 = s.torque0 := by
    rw [hRel.2.2]
    show sMid.torque0 = s.torque0
    rw [hmid.2.2.1, h0.2.2.2.2.2.1]
  have hs3t1 : s3.torque1 = s.torque1 := by
    rw [hRel.2.2]
    show sMid.torque1 = s.torque1
    rw [hmid.2.2.2.1, h0.2.2.2.2.2.2]
  have hgN3 : ¬ elapsedMs s3.timestamp iNext.now < 10 := by
    rw [hs3ts]; exact hgN
  have hNext := loopStep_run_normal s3 iNext hs3mode hgN3 heN hgxN
  have hlenMid : (runTicks (loopStep s i0).1 mids).2.length = mids.length :=
    hmid.2.2.2.2.1
  have hsplit : (runTicks s (i0 :: (mids ++ [iRel, iNext]))).2
      = (loopStep s i0).2
          :: ((runTicks (loopStep s i0).1 mids).2
            ++ [(loopStep sMid iRel).2, (loopStep s3 iNext).2]) := by
    rw [show runTicks s (i0 :: (mids ++ [iRel, iNext]))
        = ((runTicks (loopStep s i0).1 (mids ++ [iRel, iNext])).1,
           (loopStep s i0).2
             :: (runTicks (loopStep s i0).1 (mids ++ [iRel, iNext])).2)
        from rfl]
    rw [runTicks_append]
    rfl
  refine ⟨?_, ?_, ?_⟩
  · rw [hsplit]
    simp only [List.length_cons, List.length_append, hlenMid,
      List.length_cons, List.length_nil]
  · rw [hsplit]
    intro o ho
    rw [List.take_succ_cons, List.take_left' hlenMid] at ho
    rcases List.mem_cons.mp ho with rfl | ho2
    · exact ⟨Or.inl h0.1, h0.2.1, h0.2.2.1⟩
    · exact hmid.2.2.2.2.2 o ho2
  · rw [hsplit, List.drop_succ_cons, List.drop_left' hlenMid]
    rw [List.map_cons, List.map_cons, List.map_nil]
    rw [hRel.2.1, hNext.1, hs3t0, hs3t1]

/-- Claim C1 witness: one asserted reading then release; after the
release iteration (which issues no actuation), the next gated tick issues
the stored torque commands. -/
theorem C1_interlock_blocking_hold_witness :
    ((runTicks baseState ({ baseTick with estopLow := true }
        :: (([] : List TickInput) ++ [{ baseTick with now := 150 },
            { baseTick with now := 200 }]))).2.drop
        (([] : List TickInput).length + 1)).map actuations
      = [[], [commandTorque 0 (-baseState.torque0),
              commandTorque 1 (1 * baseState.torque1)]] :=
  (C1_interlock_blocking_hold baseState { baseTick with estopLow := true }
    [] { baseTick with now := 150 } { baseTick with now := 200 }
    rfl (by decide) rfl (by simp) rfl rfl
    (by norm_num [baseTick, zeroIMU, m_pi]) (by decide)).2.2

/-- Claim C6: the three calibration offsets are captured exactly once, at
startup, from the first valid sensor reads (still computed with zero
stored offsets), and no reachable step ever modifies them; consequently a
change of d in a raw reading shifts the corresponding corrected position
by exactly d up to the per-axis sign convention (axis 0 is sign-inverted,
axis 1 and yaw are not), for every state and every tick. -/
theorem C6_offsets_captured_once (si : SetupInput) :
    ((setup si).enc0Offset = (readEncoder initState si.raw0 si.raw1).2.pos0
      ∧ (setup si).enc1Offset = (readEncoder initState si.raw0 si.raw1).2.pos1
      ∧ (setup si).yawOffset
          = (readIMU (readEncoder initState si.raw0 si.raw1).1 si.imu).torso.yaw)
    ∧ (∀ s, Reachable si s →
        s.enc0Offset = (setup si).enc0Offset
        ∧ s.enc1Offset = (setup si).enc1Offset
        ∧ s.yawOffset = (setup si).yawOffset)
    ∧ (∀ (s : SysState) (r0 r1 d : ℚ),
        (readEncoder s (r0 + d) r1).2.pos0
            = (readEncoder s r0 r1).2.pos0 - d
        ∧ (readEncoder s r0 (r1 + d)).2.pos1
            = (readEncoder s r0 r1).2.pos1 + d)
    ∧ (∀ (s : SysState) (im : IMUInput) (d : ℚ),
        (readIMU s
            { im with filterYaw := im.filterYaw + SENSORS_RADS_TO_DPS * d
            }).torso.yaw
          = (readIMU s im).torso.yaw + d) := by
  refine ⟨⟨rfl, rfl, rfl⟩, ?_, ?_, ?_⟩
  · intro s h
    induction h with
    | start => exact ⟨rfl, rfl, rfl⟩
    | tick s2 inp h2 ih =>
      have hp := loopStep_preserves s2 inp
      exact ⟨hp.2.2.1.trans ih.1, hp.2.2.2.1.trans ih.2.1,
        hp.2.2.2.2.trans ih.2.2⟩
    | joint s2 m h2 ih => exact ih
    | odrv s2 m h2 ih => exact ih
  · intro s r0 r1 d
    constructor <;>
      · simp only [readEncoder]
        ring
  · intro s im d
    simp only [readIMU]
    rw [show SENSORS_RADS_TO_DPS = 5729578 / 100000 from by
      norm_num [SENSORS_RADS_TO_DPS]]
    field_simp
    ring

/-- Claim C6 witness: after a concrete tick following setup, the offsets
still equal the captured ones. -/
theorem C6_offsets_captured_once_witness :
    (loopStep (setup zeroSetup) baseTick).1.enc0Offset
        = (setup zeroSetup).enc0Offset
    ∧ (loopStep (setup zeroSetup) baseTick).1.enc1Offset
        = (setup zeroSetup).enc1Offset
    ∧ (loopStep (setup zeroSetup) baseTick).1.yawOffset
        = (setup zeroSetup).yawOffset :=
  (C6_offsets_captured_once zeroSetup).2.1 _
    (Reachable.tick _ baseTick (Reachable.start))

/-- Claim C10: in the TORQUE_CONTROL build the two stored torque commands
are equal in every reachable state (both start at 0 and every joint-state
message writes both from effort[0]; effort[1] is never read), and the
per-tick actuation of a normal tick commands the two axes with that
common stored value under opposite sign conventions (-torque0 on axis 0,
1.0*torque1 on axis 1). -/
theorem C10_torques_equal (si : SetupInput) :
    (∀ s, Reachable si s → s.torque0 = s.torque1)
    ∧ (∀ (s : SysState) (m : JointStateMsg),
        (receiveJointState s m).torque0 = m.effort0
        ∧ (receiveJointState s m).torque1 = m.effort0
        ∧ ∀ e1 : ℚ, receiveJointState s m
            = receiveJointState s { effort0 := m.effort0, effort1 := e1 })
    ∧ (∀ (s : SysState) (inp : TickInput), s.mode = Mode.run →
        ¬ elapsedMs s.timestamp inp.now < 10 →
        inp.estopLow = false → inp.imu.gx < m_pi →
        actuations (loopStep s inp).2
          = [commandTorque 0 (-s.torque0), commandTorque 1 (1 * s.torque1)]) := by
  refine ⟨?_, ?_, ?_⟩
  · intro s h
    induction h with
    | start => rfl
    | tick s2 inp h2 ih =>
      have hp := loopStep_preserves s2 inp
      rw [hp.1, hp.2.1]; exact ih
    | joint s2 m h2 ih => rfl
    | odrv s2 m h2 ih => exact ih
  · intro s m
    exact ⟨rfl, rfl, fun e1 => rfl⟩
  · intro s inp hm hg he hgx
    exact (loopStep_run_normal s inp hm hg he hgx).1

/-- Claim C10 witness: after a joint-state message with effort
[7, 9], both stored torques equal 7 (effort[1] = 9 is ignored), and they
are equal in the resulting state. -/
theorem C10_torques_equal_witness :
    (receiveJointState (setup zeroSetup)
        { effort0 := 7, effort1 := 9 }).torque0
      = (receiveJointState (setup zeroSetup)
        { effort0 := 7, effort1 := 9 }).torque1 :=
  (C10_torques_equal zeroSetup).1 _
    (Reachable.joint _ { effort0 := 7, effort1 := 9 } (Reachable.start))

end RimlessWheel
